import Mathlib

/-!
# Verification of the PKCS#1 v1.5 RSA padding template (crypto/rsa-pkcs1pad.c)

Shallow embedding of the padding layer that wraps a raw RSA engine.  The
inner RSA engine is out of scope (the spec treats it as an external
collaborator), so the per-operation models take the inner engine's return
code and its output bytes as explicit arguments; scatter-gather buffers are
modelled as plain byte lists (`List Nat`, each entry one byte); kernel
errno returns are modelled as `Int` (0 = success, negative = error).
Unsigned 32-bit C arithmetic is made explicit with `subU32` where the
source can wrap.
-/

/-- Errno constant used by the source (returned negated). -/
def ENOMEM : Int := 12

/-- Errno constant used by the source (returned negated). -/
def EBUSY : Int := 16

/-- Errno constant used by the source (returned negated). -/
def EINVAL : Int := 22

/-- Errno constant used by the source (returned negated). -/
def EBADMSG : Int := 74

/-- Errno constant used by the source (returned negated). -/
def EOVERFLOW : Int := 75

/-- Errno constant used by the source (returned negated). -/
def EINPROGRESS : Int := 115

/-- Errno constant used by the source (returned negated). -/
def ENOTSUPP : Int := 524

/-- Page size assumed by the model (the common 4 KiB configuration). -/
def PAGE_SIZE : Nat := 4096

/-- Modulus of C `unsigned int` arithmetic. -/
def U32 : Nat := 4294967296

/-- C unsigned 32-bit subtraction `a - b` (wraps below zero). -/
def subU32 (a b : Nat) : Nat := (a + U32 - b) % U32

/-! ## DigestInfo table (rsa_asn1_templates, lines 24-91 of the source) -/

/-- DER wrapping for md5 (`rsa_digest_info_md5`). -/
def rsa_digest_info_md5 : List Nat :=
  [0x30, 0x20, 0x30, 0x0c, 0x06, 0x08,
   0x2a, 0x86, 0x48, 0x86, 0xf7, 0x0d, 0x02, 0x05,
   0x05, 0x00, 0x04, 0x10]

/-- DER wrapping for sha1 (`rsa_digest_info_sha1`). -/
def rsa_digest_info_sha1 : List Nat :=
  [0x30, 0x21, 0x30, 0x09, 0x06, 0x05,
   0x2b, 0x0e, 0x03, 0x02, 0x1a,
   0x05, 0x00, 0x04, 0x14]

/-- DER wrapping for rmd160 (`rsa_digest_info_rmd160`). -/
def rsa_digest_info_rmd160 : List Nat :=
  [0x30, 0x21, 0x30, 0x09, 0x06, 0x05,
   0x2b, 0x24, 0x03, 0x02, 0x01,
   0x05, 0x00, 0x04, 0x14]

/-- DER wrapping for sha224 (`rsa_digest_info_sha224`). -/
def rsa_digest_info_sha224 : List Nat :=
  [0x30, 0x2d, 0x30, 0x0d, 0x06, 0x09,
   0x60, 0x86, 0x48, 0x01, 0x65, 0x03, 0x04, 0x02, 0x04,
   0x05, 0x00, 0x04, 0x1c]

/-- DER wrapping for sha256 (`rsa_digest_info_sha256`). -/
def rsa_digest_info_sha256 : List Nat :=
  [0x30, 0x31, 0x30, 0x0d, 0x06, 0x09,
   0x60, 0x86, 0x48, 0x01, 0x65, 0x03, 0x04, 0x02, 0x01,
   0x05, 0x00, 0x04, 0x20]

/-- DER wrapping for sha384 (`rsa_digest_info_sha384`). -/
def rsa_digest_info_sha384 : List Nat :=
  [0x30, 0x41, 0x30, 0x0d, 0x06, 0x09,
   0x60, 0x86, 0x48, 0x01, 0x65, 0x03, 0x04, 0x02, 0x02,
   0x05, 0x00, 0x04, 0x30]

/-- DER wrapping for sha512 (`rsa_digest_info_sha512`). -/
def rsa_digest_info_sha512 : List Nat :=
  [0x30, 0x51, 0x30, 0x0d, 0x06, 0x09,
   0x60, 0x86, 0x48, 0x01, 0x65, 0x03, 0x04, 0x02, 0x03,
   0x05, 0x00, 0x04, 0x40]

/-- One row of `rsa_asn1_templates`; `size` in the C struct is the length of
`data`, so it is not stored separately. -/
structure RsaAsn1Template where
  name : String
  data : List Nat
deriving DecidableEq, Repr

/-- The static template table, in the source's order (lines 70-81). -/
def rsa_asn1_templates : List RsaAsn1Template :=
  [⟨"md5", rsa_digest_info_md5⟩,
   ⟨"sha1", rsa_digest_info_sha1⟩,
   ⟨"rmd160", rsa_digest_info_rmd160⟩,
   ⟨"sha256", rsa_digest_info_sha256⟩,
   ⟨"sha384", rsa_digest_info_sha384⟩,
   ⟨"sha512", rsa_digest_info_sha512⟩,
   ⟨"sha224", rsa_digest_info_sha224⟩]

/-- `rsa_lookup_asn1` (lines 83-91): linear scan by exact name. -/
def rsa_lookup_asn1 (name : String) : Option RsaAsn1Template :=
  rsa_asn1_templates.find? (fun t => t.name == name)

/-! ## Request / result model -/

/-- Caller-visible request fields used by the model: the source bytes
(`src`, whose length is `src_len`), the destination length `dst_len`, and
the `CRYPTO_TFM_REQ_MAY_BACKLOG` flag. -/
structure AkcipherReq where
  src : List Nat
  dstLen : Nat
  mayBacklog : Bool
deriving DecidableEq, Repr

/-- The child (inner-engine) request prepared by the format stage:
the owned working buffer `inBuf`, the chained source bytes `src`
(= `inBuf ++ caller src` for encrypt/sign, caller `src` for
decrypt/verify), and the lengths handed to the inner engine. -/
structure ChildReq where
  inBuf : List Nat
  src : List Nat
  srcLen : Nat
  dstLen : Nat
deriving DecidableEq, Repr

/-- Outcome of a completion routine: the final error code, the (possibly
updated) caller `dst_len`, and the bytes copied to the caller's destination
(`none` when the error path skips the copy). -/
structure CompleteResult where
  err : Int
  dstLen : Nat
  dst : Option (List Nat)
deriving DecidableEq, Repr

/-- What a submit call returns: either the request is left pending with
the inner engine's code (`-EINPROGRESS`, or `-EBUSY` with backlog), or
post-processing ran synchronously and produced a `CompleteResult`. -/
inductive SubmitResult where
  | pending (err : Int)
  | done (r : CompleteResult)
deriving DecidableEq, Repr

/-- Overall result of one operation: a precondition failure before the
inner engine was invoked (with the possibly-updated caller `dst_len`),
a pending submission, or a synchronous completion. -/
inductive OpResult where
  | precondition (err : Int) (dstLen : Nat)
  | pending (err : Int)
  | completed (r : CompleteResult)
deriving DecidableEq, Repr

/-- Lift a submit-stage result into an operation result. -/
def OpResult.ofSubmit : SubmitResult → OpResult
  | .pending e => .pending e
  | .done r => .completed r

/-- The common tail of all four operations (e.g. lines 302-308): if the
inner call returned `-EINPROGRESS`, or `-EBUSY` with the may-backlog flag
set, return it as-is; otherwise run the completion synchronously. -/
def pkcs1pad_async_dispatch (innerRet : Int) (mayBacklog : Bool)
    (complete : Int → CompleteResult) : SubmitResult :=
  if innerRet ≠ -EINPROGRESS ∧ (innerRet ≠ -EBUSY ∨ mayBacklog = false) then
    .done (complete innerRet)
  else
    .pending innerRet

/-- The shape shared by the three `*_complete_cb` callbacks (lines 225-239,
358-371, 558-571): a spurious `-EINPROGRESS` notification is ignored
(`none`); any other code runs the completion and hands its result to the
caller's callback. -/
def pkcs1pad_async_cb (innerRet : Int)
    (complete : Int → CompleteResult) : Option CompleteResult :=
  if innerRet = -EINPROGRESS then none else some (complete innerRet)

/-! ## Scan loops of the parsers -/

/-- Tail of the parser scan loops: first position at or after `pos` whose
byte satisfies `p`, or `pos + length` when none does. -/
def scanFrom (p : Nat → Bool) : List Nat → Nat → Nat
  | [], pos => pos
  | b :: rest, pos => if p b then pos else scanFrom p rest (pos + 1)

/-- The decrypt parser's loop (lines 334-336): first index `≥ 1` holding
0x00, or `buf.length` when there is none. -/
def scanZero (buf : List Nat) : Nat :=
  scanFrom (fun b => b == 0) (buf.drop 1) 1

/-- The verify parser's loop (lines 521-523): first index `≥ 1` holding a
byte other than 0xff, or `buf.length` when there is none. -/
def scanNonFF (buf : List Nat) : Nat :=
  scanFrom (fun b => b != 0xff) (buf.drop 1) 1

/-! ## Completion routines -/

/-- `pkcs1pad_encrypt_sign_complete` (lines 185-223): on success the
caller's destination receives `key_size` bytes, the inner output
right-aligned with a zero fill in front; `req->dst_len` becomes `key_size`
on every path.  `outBuf` is identified with the `child_req.dst_len` bytes
the inner engine produced. -/
def pkcs1pad_encrypt_sign_complete (k : Nat) (outBuf : List Nat)
    (err : Int) : CompleteResult :=
  if err = 0 then
    ⟨0, k, some (List.replicate (k - outBuf.length) 0 ++ outBuf)⟩
  else
    ⟨err, k, none⟩

/-- `pkcs1pad_decrypt_complete` (lines 311-356).  `reqDstLen` is the
caller's `dst_len` on entry; `outBuf` is the inner output (its length is
the child `dst_len`); `err` the inner return code. -/
def pkcs1pad_decrypt_complete (k reqDstLen : Nat) (outBuf : List Nat)
    (err : Int) : CompleteResult :=
  let err := if err = -EOVERFLOW then -EINVAL else err
  if err ≠ 0 then ⟨err, reqDstLen, none⟩
  else if outBuf.length ≠ k - 1 then ⟨-EINVAL, reqDstLen, none⟩
  else if outBuf.getD 0 0 ≠ 0x02 then ⟨-EINVAL, reqDstLen, none⟩
  else
    let pos := scanZero outBuf
    if pos < 9 ∨ pos = outBuf.length then ⟨-EINVAL, reqDstLen, none⟩
    else
      let newLen := outBuf.length - (pos + 1)
      if reqDstLen < newLen then ⟨-EOVERFLOW, newLen, none⟩
      else ⟨0, newLen, some (outBuf.drop (pos + 1))⟩

/-- Common tail of `pkcs1pad_verify_complete` (lines 542-551): the bytes
from `pos` on are the recovered message. -/
def pkcs1pad_verify_finish (reqDstLen : Nat) (outBuf : List Nat)
    (pos : Nat) : CompleteResult :=
  let newLen := outBuf.length - pos
  if reqDstLen < newLen then ⟨-EOVERFLOW, newLen, none⟩
  else ⟨0, newLen, some (outBuf.drop pos)⟩

/-- `pkcs1pad_verify_complete` (lines 497-556).  Note the source sets
`err = -EBADMSG` before the structural checks, so a wrong first byte, a
short 0xFF run, a missing 0x00 separator, a failed per-call DigestInfo
lookup and a DigestInfo mismatch all surface as `-EBADMSG`. -/
def pkcs1pad_verify_complete (k reqDstLen : Nat) (hashName : Option String)
    (outBuf : List Nat) (err : Int) : CompleteResult :=
  let err := if err = -EOVERFLOW then -EINVAL else err
  if err ≠ 0 then ⟨err, reqDstLen, none⟩
  else if outBuf.length ≠ k - 1 then ⟨-EINVAL, reqDstLen, none⟩
  else if outBuf.getD 0 0 ≠ 0x01 then ⟨-EBADMSG, reqDstLen, none⟩
  else
    let pos := scanNonFF outBuf
    if pos < 9 ∨ pos = outBuf.length ∨ outBuf.getD pos 0 ≠ 0x00 then
      ⟨-EBADMSG, reqDstLen, none⟩
    else
      match hashName with
      | none => pkcs1pad_verify_finish reqDstLen outBuf (pos + 1)
      | some n =>
        match rsa_lookup_asn1 n with
        | none => ⟨-EBADMSG, reqDstLen, none⟩
        | some di =>
          if (outBuf.drop (pos + 1)).take di.data.length ≠ di.data then
            ⟨-EBADMSG, reqDstLen, none⟩
          else
            pkcs1pad_verify_finish reqDstLen outBuf (pos + 1 + di.data.length)

/-! ## Format stages (validation and working-buffer construction) -/

/-- The working buffer built by `pkcs1pad_encrypt` (lines 278-282):
`0x02`, then `ps_end - 1` bytes `1 + prandom_u32_max(255)` (the random
source is modelled by `rnd`, reduced mod 255 as the C helper guarantees a
value below 255), then `0x00`.  Its length is `k - 1 - srcLen`. -/
def pkcs1pad_encrypt_in_buf (rnd : Nat → Nat) (k srcLen : Nat) : List Nat :=
  let psEnd := k - srcLen - 2
  0x02 :: (((List.range' 1 (psEnd - 1)).map fun i => 1 + rnd i % 255) ++ [0x00])

/-- The working buffer built by `pkcs1pad_sign` (lines 460-468):
`0x01`, then `ps_end - 1` bytes 0xff, then `0x00`, then the DER prefix
(empty when no hash is configured).  Its length is `k - 1 - srcLen`. -/
def pkcs1pad_sign_in_buf (k digestSize srcLen : Nat) (der : List Nat) : List Nat :=
  let psEnd := k - digestSize - srcLen - 2
  0x01 :: (List.replicate (psEnd - 1) 0xff ++ (0x00 :: der))

/-- Validation and child-request construction of `pkcs1pad_encrypt`
(lines 249-300), up to the inner-engine invocation.  An `.error` is a
precondition failure carrying the error code and the (possibly updated)
caller `dst_len`; allocation failures are not modelled. -/
def pkcs1pad_encrypt_format (rnd : Nat → Nat) (k : Nat) (src : List Nat)
    (dstLen : Nat) : Except (Int × Nat) ChildReq :=
  if k = 0 then .error (-EINVAL, dstLen)
  else if src.length > subU32 k 11 then .error (-EOVERFLOW, dstLen)
  else if dstLen < k then .error (-EOVERFLOW, k)
  else if k > PAGE_SIZE then .error (-ENOTSUPP, dstLen)
  else
    let inBuf := pkcs1pad_encrypt_in_buf rnd k src.length
    .ok ⟨inBuf, inBuf ++ src, k - 1, k⟩

/-- Length checks and child-request construction shared by the two
`pkcs1pad_sign` branches (lines 434-486), after the DigestInfo lookup. -/
def pkcs1pad_sign_format_rest (k digestSize : Nat) (der : List Nat)
    (src : List Nat) (dstLen : Nat) : Except (Int × Nat) ChildReq :=
  if src.length + digestSize > subU32 k 11 then .error (-EOVERFLOW, dstLen)
  else if dstLen < k then .error (-EOVERFLOW, k)
  else if k > PAGE_SIZE then .error (-ENOTSUPP, dstLen)
  else
    let inBuf := pkcs1pad_sign_in_buf k digestSize src.length der
    .ok ⟨inBuf, inBuf ++ src, k - 1, k⟩

/-- Validation and child-request construction of `pkcs1pad_sign`
(lines 423-486), up to the inner-engine invocation. -/
def pkcs1pad_sign_format (k : Nat) (hashName : Option String)
    (src : List Nat) (dstLen : Nat) : Except (Int × Nat) ChildReq :=
  if k = 0 then .error (-EINVAL, dstLen)
  else
    match hashName with
    | some n =>
      match rsa_lookup_asn1 n with
      | none => .error (-EINVAL, dstLen)
      | some di => pkcs1pad_sign_format_rest k di.data.length di.data src dstLen
    | none => pkcs1pad_sign_format_rest k 0 [] src dstLen

/-- Validation of `pkcs1pad_decrypt` (lines 380-399): the caller's source
is reused as the child source; only `out_buf` is fresh. -/
def pkcs1pad_decrypt_format (k : Nat) (src : List Nat)
    (dstLen : Nat) : Except (Int × Nat) ChildReq :=
  if k = 0 ∨ src.length ≠ k then .error (-EINVAL, dstLen)
  else if k > PAGE_SIZE then .error (-ENOTSUPP, dstLen)
  else .ok ⟨[], src, src.length, k⟩

/-- Validation of `pkcs1pad_verify` (lines 588-607): any source length
at least `k` is accepted. -/
def pkcs1pad_verify_format (k : Nat) (src : List Nat)
    (dstLen : Nat) : Except (Int × Nat) ChildReq :=
  if k = 0 ∨ src.length < k then .error (-EINVAL, dstLen)
  else if k > PAGE_SIZE then .error (-ENOTSUPP, dstLen)
  else .ok ⟨[], src, src.length, k⟩

/-! ## Full operations

Each operation takes the cached `key_size` `k` (and, where relevant, the
configured hash name), the caller's request, and the inner engine's
behaviour on this request: its return code `innerRet` and the bytes
`innerOut` it wrote into `out_buf` (whose length is the child `dst_len`
after completion). -/

/-- `pkcs1pad_encrypt` (lines 241-309). -/
def pkcs1pad_encrypt (rnd : Nat → Nat) (k : Nat) (req : AkcipherReq)
    (innerRet : Int) (innerOut : List Nat) : OpResult :=
  match pkcs1pad_encrypt_format rnd k req.src req.dstLen with
  | .error (e, d) => .precondition e d
  | .ok _ => .ofSubmit (pkcs1pad_async_dispatch innerRet req.mayBacklog
      (pkcs1pad_encrypt_sign_complete k innerOut))

/-- `pkcs1pad_sign` (lines 414-495). -/
def pkcs1pad_sign (k : Nat) (hashName : Option String) (req : AkcipherReq)
    (innerRet : Int) (innerOut : List Nat) : OpResult :=
  match pkcs1pad_sign_format k hashName req.src req.dstLen with
  | .error (e, d) => .precondition e d
  | .ok _ => .ofSubmit (pkcs1pad_async_dispatch innerRet req.mayBacklog
      (pkcs1pad_encrypt_sign_complete k innerOut))

/-- `pkcs1pad_decrypt` (lines 373-412). -/
def pkcs1pad_decrypt (k : Nat) (req : AkcipherReq)
    (innerRet : Int) (innerOut : List Nat) : OpResult :=
  match pkcs1pad_decrypt_format k req.src req.dstLen with
  | .error (e, d) => .precondition e d
  | .ok _ => .ofSubmit (pkcs1pad_async_dispatch innerRet req.mayBacklog
      (pkcs1pad_decrypt_complete k req.dstLen innerOut))

/-- `pkcs1pad_verify` (lines 581-620). -/
def pkcs1pad_verify (k : Nat) (hashName : Option String) (req : AkcipherReq)
    (innerRet : Int) (innerOut : List Nat) : OpResult :=
  match pkcs1pad_verify_format k req.src req.dstLen with
  | .error (e, d) => .precondition e d
  | .ok _ => .ofSubmit (pkcs1pad_async_dispatch innerRet req.mayBacklog
      (pkcs1pad_verify_complete k req.dstLen hashName innerOut))

/-! ## Key installation -/

/-- `pkcs1pad_set_pub_key` (lines 111-129): `prevKeySize` is the cached
`key_size` before the call, `innerErr` the inner set-key return,
`maxSize` the inner `maxsize` reply.  Returns the error code and the new
cached `key_size`. -/
def pkcs1pad_set_pub_key (prevKeySize : Nat) (innerErr maxSize : Int) :
    Int × Nat :=
  if innerErr = 0 then
    ((if maxSize ≤ 0 then maxSize else 0),
     (if 0 < maxSize then maxSize.toNat else 0))
  else (innerErr, prevKeySize)

/-- `pkcs1pad_set_priv_key` (lines 131-149): identical body to
`pkcs1pad_set_pub_key` with the inner private-key setter. -/
def pkcs1pad_set_priv_key (prevKeySize : Nat) (innerErr maxSize : Int) :
    Int × Nat :=
  if innerErr = 0 then
    ((if maxSize ≤ 0 then maxSize else 0),
     (if 0 < maxSize then maxSize.toNat else 0))
  else (innerErr, prevKeySize)

/-! ## Predicates used to state the verify claims -/

/-- Structural well-formedness of a verify block as the parser checks it:
first byte 0x01, at least eight 0xFF bytes, then a 0x00 separator that is
present (the scan did not run off the end). -/
def verifyStructOk (buf : List Nat) : Prop :=
  buf.getD 0 0 = 0x01 ∧ 9 ≤ scanNonFF buf ∧ scanNonFF buf ≠ buf.length ∧
    buf.getD (scanNonFF buf) 0 = 0x00

instance (buf : List Nat) : Decidable (verifyStructOk buf) := by
  unfold verifyStructOk; infer_instance

/-- The DigestInfo condition of the verify parser: with no configured hash
there is nothing to check; with a configured hash the per-call lookup must
succeed and the bytes after the separator must begin with the DER prefix. -/
def verifyDigestOk (hashName : Option String) (buf : List Nat) : Prop :=
  match hashName with
  | none => True
  | some n =>
    match rsa_lookup_asn1 n with
    | none => False
    | some di => (buf.drop (scanNonFF buf + 1)).take di.data.length = di.data

instance (hashName : Option String) (buf : List Nat) :
    Decidable (verifyDigestOk hashName buf) := by
  unfold verifyDigestOk
  rcases hashName with _ | n
  · exact isTrue trivial
  · cases h : rsa_lookup_asn1 n with
    | none => simp only [h]; exact isFalse id
    | some di => simp only [h]; infer_instance


/-! ## Helper lemmas -/

/-- C unsigned subtraction agrees with `Nat` subtraction when it does not
wrap. -/
theorem subU32_eq (a b : Nat) (hb : b ≤ a) (ha : a < U32) :
    subU32 a b = a - b := by
  unfold subU32
  have h : a + U32 - b = (a - b) + U32 := by omega
  rw [h, Nat.add_mod_right]
  exact Nat.mod_eq_of_lt (by omega)

/-- The scan loop stops at the first position whose byte satisfies `p`. -/
theorem scanFrom_append (p : Nat → Bool) (l2 : List Nat) (c : Nat)
    (hc : p c = true) :
    ∀ (l1 : List Nat) (pos : Nat), (∀ x ∈ l1, p x = false) →
      scanFrom p (l1 ++ c :: l2) pos = pos + l1.length := by
  intro l1
  induction l1 with
  | nil => intro pos _; simp [scanFrom, hc]
  | cons a t ih =>
    intro pos h1
    have ha : p a = false := h1 a (by simp)
    have ht := ih (pos + 1) (fun x hx => h1 x (by simp [hx]))
    rw [List.cons_append, scanFrom, ha]
    simp only [Bool.false_eq_true, if_false, ht, List.length_cons]
    omega

/-- Length of the encrypt working buffer. -/
theorem pkcs1pad_encrypt_in_buf_length (rnd : Nat → Nat) (k s : Nat)
    (h : s + 3 ≤ k) :
    (pkcs1pad_encrypt_in_buf rnd k s).length = k - s - 1 := by
  simp [pkcs1pad_encrypt_in_buf]
  omega

/-- The error of the verify finish step is success or overflow. -/
theorem pkcs1pad_verify_finish_err (r : Nat) (b : List Nat) (p : Nat) :
    (pkcs1pad_verify_finish r b p).err = 0 ∨
      (pkcs1pad_verify_finish r b p).err = -EOVERFLOW := by
  simp only [pkcs1pad_verify_finish]
  split
  · right; rfl
  · left; rfl

/-- When all precondition checks pass, the encrypt format stage hands the
inner engine the working buffer chained with the caller's plaintext. -/
theorem pkcs1pad_encrypt_format_ok (rnd : Nat → Nat) (k : Nat)
    (msg : List Nat) (dstLen : Nat)
    (hk : 11 ≤ k) (hku : k < U32) (hlen : msg.length ≤ k - 11)
    (hdst : k ≤ dstLen) (hpg : k ≤ PAGE_SIZE) :
    pkcs1pad_encrypt_format rnd k msg dstLen =
      .ok ⟨pkcs1pad_encrypt_in_buf rnd k msg.length,
           pkcs1pad_encrypt_in_buf rnd k msg.length ++ msg, k - 1, k⟩ := by
  have hsub : subU32 k 11 = k - 11 := subU32_eq k 11 (by omega) hku
  unfold pkcs1pad_encrypt_format
  rw [if_neg (by omega), hsub, if_neg (by omega), if_neg (by omega),
    if_neg (by omega)]

/-- A validated encrypt request with a successful inner call completes
with a `key_size`-byte destination: the inner output preceded by the
reconstructed leading zero bytes. -/
theorem pkcs1pad_encrypt_success (rnd : Nat → Nat) (k : Nat)
    (msg ctext : List Nat) (encDstLen : Nat) (b : Bool)
    (hk : 11 ≤ k) (hku : k < U32) (hpg : k ≤ PAGE_SIZE)
    (hlen : msg.length ≤ k - 11) (hed : k ≤ encDstLen) :
    pkcs1pad_encrypt rnd k ⟨msg, encDstLen, b⟩ 0 ctext =
      .completed ⟨0, k, some (List.replicate (k - ctext.length) 0 ++ ctext)⟩ := by
  have hfmt := pkcs1pad_encrypt_format_ok rnd k msg encDstLen hk hku hlen hed hpg
  simp only [pkcs1pad_encrypt, hfmt]
  unfold pkcs1pad_async_dispatch
  rw [if_pos ⟨by decide, Or.inl (by decide)⟩]
  unfold pkcs1pad_encrypt_sign_complete
  rw [if_pos rfl]
  rfl

/-- Decrypt post-processing applied to the exact padded block built by
encrypt recovers the original plaintext. -/
theorem pkcs1pad_decrypt_recovers_block (rnd : Nat → Nat) (k : Nat)
    (msg src : List Nat) (dstLen : Nat) (b2 : Bool)
    (hk : 11 ≤ k) (hpg : k ≤ PAGE_SIZE)
    (hlen : msg.length ≤ k - 11)
    (hsrc : src.length = k) (hdst : msg.length ≤ dstLen) :
    pkcs1pad_decrypt k ⟨src, dstLen, b2⟩ 0
      (pkcs1pad_encrypt_in_buf rnd k msg.length ++ msg) =
      .completed ⟨0, msg.length, some msg⟩ := by
  set P := (List.range' 1 (k - msg.length - 2 - 1)).map
    (fun i => 1 + rnd i % 255) with hP
  have hPlen : P.length = k - msg.length - 3 := by
    simp [hP]
    omega
  have hPne : ∀ x ∈ P, (x == 0) = false := by
    intro x hx
    simp only [hP, List.mem_map] at hx
    obtain ⟨i, _, rfl⟩ := hx
    rw [beq_eq_false_iff_ne]
    omega
  have hB : pkcs1pad_encrypt_in_buf rnd k msg.length ++ msg =
      0x02 :: (P ++ (0x00 :: msg)) := by
    unfold pkcs1pad_encrypt_in_buf
    simp [List.append_assoc]
  have hBlen : (0x02 :: (P ++ (0x00 :: msg))).length = k - 1 := by
    simp [hPlen]
    omega
  have hscan : scanZero (0x02 :: (P ++ (0x00 :: msg))) = k - msg.length - 2 := by
    unfold scanZero
    rw [show ((0x02 :: (P ++ (0x00 :: msg))).drop 1) = P ++ (0x00 :: msg)
      from rfl]
    rw [scanFrom_append _ _ _ rfl P 1 hPne]
    omega
  have hdrop : (0x02 :: (P ++ (0x00 :: msg))).drop (k - msg.length - 2 + 1) =
      msg := by
    have h1 : (0x02 :: (P ++ [0x00])).length = k - msg.length - 2 + 1 := by
      simp [hPlen]
      omega
    have h2 : 0x02 :: (P ++ (0x00 :: msg)) = (0x02 :: (P ++ [0x00])) ++ msg := by
      simp
    rw [h2, ← h1, List.drop_left]
  have hcomp : pkcs1pad_decrypt_complete k dstLen
      (0x02 :: (P ++ (0x00 :: msg))) 0 = ⟨0, msg.length, some msg⟩ := by
    unfold pkcs1pad_decrypt_complete
    rw [if_neg (by decide), if_neg (by rw [hBlen]; omega),
      if_neg (by simp), hscan]
    rw [if_neg (by omega)]
    rw [if_neg (by rw [hBlen]; omega)]
    rw [hdrop, hBlen]
    have : k - 1 - (k - msg.length - 2 + 1) = msg.length := by omega
    rw [this]
  rw [hB]
  unfold pkcs1pad_decrypt pkcs1pad_decrypt_format
  rw [if_neg (by rw [hsrc]; omega), if_neg (by omega)]
  dsimp only
  unfold pkcs1pad_async_dispatch
  rw [if_pos ⟨by decide, Or.inl (by decide)⟩]
  rw [hcomp]
  rfl

/-! ## Claim C1 -/

set_option maxRecDepth 10000 in
/-- C1 counterexample: a structurally malformed verify block (first byte
0x02 instead of 0x01) whose inner operation succeeded with `k - 1` output
bytes completes with `-EBADMSG`, not the `-EINVAL` the claim requires:
the source sets `err = -EBADMSG` before all structural checks. -/
theorem pkcs1pad_verify_structural_error_counterexample :
    pkcs1pad_verify_complete 128 128 (some "sha256")
      (0x02 :: List.replicate 126 0xff) 0 = ⟨-EBADMSG, 128, none⟩ ∧
    (-EBADMSG : Int) ≠ -EINVAL := by
  constructor
  · decide
  · decide

/-- C1 (amended): for a verify request whose inner operation succeeds with
output length `k - 1`, both a structurally malformed block and a
structurally well-formed block whose DigestInfo check fails complete with
*bad-message*; this completion stage never yields *invalid* (that code
arises only from the inner-length check or from mapping the inner
engine's errors). -/
theorem pkcs1pad_verify_error_partition (k reqDstLen : Nat)
    (hashName : Option String) (buf : List Nat)
    (hlen : buf.length = k - 1) :
    ((pkcs1pad_verify_complete k reqDstLen hashName buf 0).err = -EBADMSG ↔
      ¬(verifyStructOk buf ∧ verifyDigestOk hashName buf)) ∧
    (pkcs1pad_verify_complete k reqDstLen hashName buf 0).err ≠ -EINVAL := by
  unfold pkcs1pad_verify_complete
  rw [if_neg (by decide), if_neg (not_not_intro hlen)]
  by_cases h0 : buf.getD 0 0 = 0x01
  · rw [if_neg (not_not_intro h0)]
    by_cases hp : scanNonFF buf < 9 ∨ scanNonFF buf = buf.length ∨
        buf.getD (scanNonFF buf) 0 ≠ 0x00
    · rw [if_pos hp]
      refine ⟨iff_of_true rfl ?_,
        show ¬((-EBADMSG : Int) = -EINVAL) by decide⟩
      rintro ⟨⟨hs0, hs9, hsl, hsz⟩, -⟩
      rcases hp with h | h | h
      · omega
      · exact hsl h
      · exact h hsz
    · push_neg at hp
      obtain ⟨hp9, hpl, hpz⟩ := hp
      have hstruct : verifyStructOk buf := ⟨h0, hp9, hpl, hpz⟩
      rw [if_neg (by push_neg; exact ⟨by omega, hpl, hpz⟩)]
      rcases hashName with _ | n
      · dsimp only
        refine ⟨iff_of_false ?_ (not_not_intro ⟨hstruct, trivial⟩), ?_⟩
        · intro hh
          rcases pkcs1pad_verify_finish_err reqDstLen buf (scanNonFF buf + 1)
            with h | h <;> rw [hh] at h <;> exact absurd h (by decide)
        · intro hh
          rcases pkcs1pad_verify_finish_err reqDstLen buf (scanNonFF buf + 1)
            with h | h <;> rw [hh] at h <;> exact absurd h (by decide)
      · dsimp only
        cases hl : rsa_lookup_asn1 n with
        | none =>
          dsimp only
          refine ⟨iff_of_true rfl ?_,
            show ¬((-EBADMSG : Int) = -EINVAL) by decide⟩
          rintro ⟨-, hd⟩
          unfold verifyDigestOk at hd
          simp only [hl] at hd
        | some di =>
          dsimp only
          by_cases hm : (buf.drop (scanNonFF buf + 1)).take di.data.length =
              di.data
          · rw [if_neg (not_not_intro hm)]
            have hdig : verifyDigestOk (some n) buf := by
              unfold verifyDigestOk
              simp only [hl]
              exact hm
            refine ⟨iff_of_false ?_ (not_not_intro ⟨hstruct, hdig⟩), ?_⟩
            · intro hh
              rcases pkcs1pad_verify_finish_err reqDstLen buf
                (scanNonFF buf + 1 + di.data.length) with h | h <;>
                rw [hh] at h <;> exact absurd h (by decide)
            · intro hh
              rcases pkcs1pad_verify_finish_err reqDstLen buf
                (scanNonFF buf + 1 + di.data.length) with h | h <;>
                rw [hh] at h <;> exact absurd h (by decide)
          · rw [if_pos hm]
            refine ⟨iff_of_true rfl ?_,
              show ¬((-EBADMSG : Int) = -EINVAL) by decide⟩
            rintro ⟨-, hd⟩
            unfold verifyDigestOk at hd
            simp only [hl] at hd
            exact hm hd
  · rw [if_pos h0]
    refine ⟨iff_of_true rfl ?_,
      show ¬((-EBADMSG : Int) = -EINVAL) by decide⟩
    rintro ⟨⟨hs0, -⟩, -⟩
    exact h0 hs0

set_option maxRecDepth 10000 in
/-- C1 witness: the amended claim evaluated on a concrete well-formed
127-byte block with no configured hash. -/
theorem pkcs1pad_verify_error_partition_witness :
    ((pkcs1pad_verify_complete 128 128 none
        (0x01 :: (List.replicate 116 0xff ++ (0x00 :: List.replicate 9 0x41)))
        0).err = -EBADMSG ↔
      ¬(verifyStructOk
          (0x01 :: (List.replicate 116 0xff ++ (0x00 :: List.replicate 9 0x41))) ∧
        verifyDigestOk none
          (0x01 :: (List.replicate 116 0xff ++ (0x00 :: List.replicate 9 0x41))))) ∧
    (pkcs1pad_verify_complete 128 128 none
        (0x01 :: (List.replicate 116 0xff ++ (0x00 :: List.replicate 9 0x41)))
        0).err ≠ -EINVAL :=
  pkcs1pad_verify_error_partition 128 128 none
    (0x01 :: (List.replicate 116 0xff ++ (0x00 :: List.replicate 9 0x41)))
    (by decide)

/-! ## Claim C2 -/

/-- C2: with a key of modulus size `k` and a plaintext of length at most
`k - 11`, decrypt applied to the destination of a successful encrypt
recovers exactly the original plaintext.  The inner engine is abstract, so
the assumption that its decrypt inverts its encrypt on `k - 1`-byte blocks
is embedded by feeding decrypt's post-processing the exact `k - 1`-byte
block that encrypt submitted (`pkcs1pad_encrypt_in_buf ++ msg`), while the
first conjunct shows the encrypt side completing successfully on the same
request with a `k`-byte destination. -/
theorem pkcs1pad_decrypt_inverts_encrypt (rnd : Nat → Nat) (k : Nat)
    (msg src ctext : List Nat) (encDstLen dstLen : Nat) (b b2 : Bool)
    (hk : 11 ≤ k) (hku : k < U32) (hpg : k ≤ PAGE_SIZE)
    (hlen : msg.length ≤ k - 11) (hed : k ≤ encDstLen)
    (hsrc : src.length = k) (hdst : msg.length ≤ dstLen) :
    pkcs1pad_encrypt rnd k ⟨msg, encDstLen, b⟩ 0 ctext =
      .completed ⟨0, k, some (List.replicate (k - ctext.length) 0 ++ ctext)⟩ ∧
    pkcs1pad_decrypt k ⟨src, dstLen, b2⟩ 0
      (pkcs1pad_encrypt_in_buf rnd k msg.length ++ msg) =
      .completed ⟨0, msg.length, some msg⟩ :=
  ⟨pkcs1pad_encrypt_success rnd k msg ctext encDstLen b hk hku hpg hlen hed,
   pkcs1pad_decrypt_recovers_block rnd k msg src dstLen b2 hk hpg hlen hsrc
     hdst⟩

/-- C2 witness: a 3-byte plaintext round-trips through a 16-byte modulus. -/
theorem pkcs1pad_decrypt_inverts_encrypt_witness :
    pkcs1pad_encrypt (fun _ => 0) 16 ⟨[0x41, 0x42, 0x43], 16, false⟩ 0
        (List.replicate 16 9) =
      .completed ⟨0, 16, some (List.replicate 16 9)⟩ ∧
    pkcs1pad_decrypt 16 ⟨List.replicate 16 9, 5, false⟩ 0
        (pkcs1pad_encrypt_in_buf (fun _ => 0) 16 3 ++ [0x41, 0x42, 0x43]) =
      .completed ⟨0, 3, some [0x41, 0x42, 0x43]⟩ :=
  pkcs1pad_decrypt_inverts_encrypt (fun _ => 0) 16
    [0x41, 0x42, 0x43] (List.replicate 16 9) (List.replicate 16 9) 16 5
    false false (by decide) (by decide) (by decide) (by decide) (by decide)
    (by decide) (by decide)

/-! ## Claim C3 -/

/-- C3 counterexample: a successful decrypt whose 0x00 separator is the
last byte of the block (index `k - 2`, which is `≥ 9` and `< k - 1`)
recovers an *empty* payload, refuting the claim that the accepted
separator range makes the payload recovered on success non-empty. -/
theorem pkcs1pad_decrypt_empty_payload_counterexample :
    pkcs1pad_decrypt_complete 12 12
      (0x02 :: (List.replicate 9 0xaa ++ [0x00])) 0 = ⟨0, 0, some []⟩ := by
  decide

/-- C3 (amended): decrypt post-processing yields the uniform error
*invalid* exactly when the inner engine reported *overflow*, the inner
output length differs from `k - 1`, the first byte is not 0x02, or the
first 0x00 separator sits below index 9 or is absent; it succeeds exactly
when none of these hold and the caller's buffer is large enough, in which
case the payload is the suffix after the separator and may be empty
(separator at index `k - 2`). -/
theorem pkcs1pad_decrypt_invalid_characterization (k reqDstLen : Nat)
    (buf : List Nat) (err : Int)
    (herr : err = 0 ∨ err = -EOVERFLOW) :
    ((pkcs1pad_decrypt_complete k reqDstLen buf err).err = -EINVAL ↔
      (err = -EOVERFLOW ∨ buf.length ≠ k - 1 ∨ buf.getD 0 0 ≠ 0x02 ∨
       scanZero buf < 9 ∨ scanZero buf = buf.length)) ∧
    ((pkcs1pad_decrypt_complete k reqDstLen buf err).err = 0 ↔
      (err = 0 ∧ buf.length = k - 1 ∧ buf.getD 0 0 = 0x02 ∧
       9 ≤ scanZero buf ∧ scanZero buf ≠ buf.length ∧
       buf.length - (scanZero buf + 1) ≤ reqDstLen)) := by
  rcases herr with rfl | rfl
  · unfold pkcs1pad_decrypt_complete
    rw [if_neg (by decide)]
    by_cases hL : buf.length = k - 1
    · rw [if_neg (not_not_intro hL)]
      by_cases h0 : buf.getD 0 0 = 0x02
      · rw [if_neg (not_not_intro h0)]
        by_cases hp : scanZero buf < 9 ∨ scanZero buf = buf.length
        · rw [if_pos hp]
          refine ⟨iff_of_true rfl ?_,
            iff_of_false (show ¬((-EINVAL : Int) = 0) by decide) ?_⟩
          · rcases hp with h | h
            · exact Or.inr (Or.inr (Or.inr (Or.inl h)))
            · exact Or.inr (Or.inr (Or.inr (Or.inr h)))
          · rintro ⟨-, -, -, h9, hne, -⟩
            rcases hp with h | h
            · omega
            · exact hne h
        · rw [if_neg hp]
          push_neg at hp
          by_cases hov : reqDstLen < buf.length - (scanZero buf + 1)
          · rw [if_pos hov]
            refine ⟨iff_of_false (show ¬((-EOVERFLOW : Int) = -EINVAL) by decide) ?_,
              iff_of_false (show ¬((-EOVERFLOW : Int) = 0) by decide) ?_⟩
            · rintro (h | h | h | h | h)
              · exact absurd h (by decide)
              · exact h hL
              · exact h h0
              · omega
              · exact hp.2 h
            · rintro ⟨-, -, -, -, -, h⟩
              omega
          · rw [if_neg hov]
            refine ⟨iff_of_false (show ¬((0 : Int) = -EINVAL) by decide) ?_,
              iff_of_true rfl ?_⟩
            · rintro (h | h | h | h | h)
              · exact absurd h (by decide)
              · exact h hL
              · exact h h0
              · omega
              · exact hp.2 h
            · exact ⟨rfl, hL, h0, hp.1, hp.2, by omega⟩
      · rw [if_pos h0]
        refine ⟨iff_of_true rfl (Or.inr (Or.inr (Or.inl h0))),
          iff_of_false (show ¬((-EINVAL : Int) = 0) by decide) ?_⟩
        rintro ⟨-, -, h, -⟩
        exact h0 h
    · rw [if_pos hL]
      refine ⟨iff_of_true rfl (Or.inr (Or.inl hL)),
        iff_of_false (show ¬((-EINVAL : Int) = 0) by decide) ?_⟩
      rintro ⟨-, h, -⟩
      exact hL h
  · unfold pkcs1pad_decrypt_complete
    rw [if_pos rfl, if_pos (by decide)]
    exact ⟨iff_of_true rfl (Or.inl rfl),
      iff_of_false (show ¬((-EINVAL : Int) = 0) by decide)
        (by rintro ⟨h, -⟩; exact absurd h (by decide))⟩

/-- C3 witness: the amended characterization evaluated on the empty inner
output with `k = 1`. -/
theorem pkcs1pad_decrypt_invalid_characterization_witness :
    ((pkcs1pad_decrypt_complete 1 0 [] 0).err = -EINVAL ↔
      ((0 : Int) = -EOVERFLOW ∨ ([] : List Nat).length ≠ 1 - 1 ∨
       ([] : List Nat).getD 0 0 ≠ 0x02 ∨ scanZero [] < 9 ∨
       scanZero [] = ([] : List Nat).length)) ∧
    ((pkcs1pad_decrypt_complete 1 0 [] 0).err = 0 ↔
      ((0 : Int) = 0 ∧ ([] : List Nat).length = 1 - 1 ∧
       ([] : List Nat).getD 0 0 = 0x02 ∧ 9 ≤ scanZero [] ∧
       scanZero [] ≠ ([] : List Nat).length ∧
       ([] : List Nat).length - (scanZero [] + 1) ≤ 0)) :=
  pkcs1pad_decrypt_invalid_characterization 1 0 [] 0 (Or.inl rfl)

/-! ## Claim C4 -/

/-- C4: for a sign request with a configured hash whose template is found
and which passes validation, the block handed to the inner engine is the
working buffer (0x01, then `k - 3 - len(msg) - len(der)` bytes of 0xFF,
then 0x00, then the DER prefix) chained with the caller's message, with
inner source length `k - 1`; the working buffer has length
`k - 1 - len(msg)`. -/
theorem pkcs1pad_sign_block_layout (k : Nat) (name : String)
    (di : RsaAsn1Template) (msg : List Nat) (dstLen : Nat)
    (hlook : rsa_lookup_asn1 name = some di)
    (hk : 11 ≤ k) (hku : k < U32)
    (hlen : msg.length + di.data.length ≤ k - 11)
    (hdst : k ≤ dstLen) (hpg : k ≤ PAGE_SIZE) :
    pkcs1pad_sign_format k (some name) msg dstLen =
      .ok ⟨pkcs1pad_sign_in_buf k di.data.length msg.length di.data,
           pkcs1pad_sign_in_buf k di.data.length msg.length di.data ++ msg,
           k - 1, k⟩ ∧
    pkcs1pad_sign_in_buf k di.data.length msg.length di.data =
      0x01 :: (List.replicate (k - 3 - msg.length - di.data.length) 0xff ++
        (0x00 :: di.data)) ∧
    (pkcs1pad_sign_in_buf k di.data.length msg.length di.data).length =
      k - 1 - msg.length ∧
    (pkcs1pad_sign_in_buf k di.data.length msg.length di.data ++ msg).length =
      k - 1 := by
  have hsub : subU32 k 11 = k - 11 := subU32_eq k 11 (by omega) hku
  refine ⟨?_, ?_, ?_, ?_⟩
  · unfold pkcs1pad_sign_format
    rw [if_neg (by omega)]
    simp only [hlook]
    unfold pkcs1pad_sign_format_rest
    rw [hsub, if_neg (by omega), if_neg (by omega), if_neg (by omega)]
  · have h2 : k - di.data.length - msg.length - 2 - 1 =
        k - 3 - msg.length - di.data.length := by omega
    simp only [pkcs1pad_sign_in_buf, h2]
  · simp [pkcs1pad_sign_in_buf]
    omega
  · simp [pkcs1pad_sign_in_buf]
    omega

set_option maxRecDepth 10000 in
/-- C4 witness: signing the 5-byte message "hello" with sha256 and
`k = 128` submits a 122-byte working buffer `0x01 || 0xFF^101 || 0x00 ||
der(sha256)` chained with the message, 127 bytes in total. -/
theorem pkcs1pad_sign_block_layout_witness :
    pkcs1pad_sign_format 128 (some "sha256")
        [0x68, 0x65, 0x6c, 0x6c, 0x6f] 128 =
      .ok ⟨pkcs1pad_sign_in_buf 128 19 5 rsa_digest_info_sha256,
           pkcs1pad_sign_in_buf 128 19 5 rsa_digest_info_sha256 ++
             [0x68, 0x65, 0x6c, 0x6c, 0x6f], 127, 128⟩ ∧
    pkcs1pad_sign_in_buf 128 19 5 rsa_digest_info_sha256 =
      0x01 :: (List.replicate 101 0xff ++ (0x00 :: rsa_digest_info_sha256)) ∧
    (pkcs1pad_sign_in_buf 128 19 5 rsa_digest_info_sha256).length = 122 ∧
    (pkcs1pad_sign_in_buf 128 19 5 rsa_digest_info_sha256 ++
      [0x68, 0x65, 0x6c, 0x6c, 0x6f]).length = 127 :=
  pkcs1pad_sign_block_layout 128 "sha256" ⟨"sha256", rsa_digest_info_sha256⟩
    [0x68, 0x65, 0x6c, 0x6c, 0x6f] 128 (by decide) (by decide) (by decide)
    (by decide) (by decide) (by decide)

/-! ## Claim C5 -/

/-- C5: for an encrypt request passing validation, the working buffer
prepended to the caller's plaintext is 0x02, then exactly
`k - 3 - len(msg)` padding bytes each in `[1, 255]` (never 0x00), then a
single 0x00, and the inner engine is invoked with source length `k - 1`. -/
theorem pkcs1pad_encrypt_block_layout (rnd : Nat → Nat) (k : Nat)
    (msg : List Nat) (dstLen : Nat)
    (hk : 11 ≤ k) (hku : k < U32) (hlen : msg.length ≤ k - 11)
    (hdst : k ≤ dstLen) (hpg : k ≤ PAGE_SIZE) :
    pkcs1pad_encrypt_format rnd k msg dstLen =
      .ok ⟨pkcs1pad_encrypt_in_buf rnd k msg.length,
           pkcs1pad_encrypt_in_buf rnd k msg.length ++ msg, k - 1, k⟩ ∧
    ∃ ps, pkcs1pad_encrypt_in_buf rnd k msg.length = 0x02 :: (ps ++ [0x00]) ∧
      ps.length = k - 3 - msg.length ∧ ∀ b ∈ ps, 1 ≤ b ∧ b ≤ 255 := by
  constructor
  · exact pkcs1pad_encrypt_format_ok rnd k msg dstLen hk hku hlen hdst hpg
  · refine ⟨_, rfl, ?_, ?_⟩
    · simp
      omega
    · intro b hb
      simp only [List.mem_map] at hb
      obtain ⟨i, _, rfl⟩ := hb
      omega

/-- C5 witness: the encrypt block layout for `k = 128` and a 3-byte
plaintext: 122 padding bytes, all nonzero, inner source length 127. -/
theorem pkcs1pad_encrypt_block_layout_witness :
    pkcs1pad_encrypt_format (fun i => i) 128 [0x41, 0x42, 0x43] 128 =
      .ok ⟨pkcs1pad_encrypt_in_buf (fun i => i) 128 3,
           pkcs1pad_encrypt_in_buf (fun i => i) 128 3 ++ [0x41, 0x42, 0x43],
           127, 128⟩ ∧
    (∃ ps, pkcs1pad_encrypt_in_buf (fun i => i) 128 3 =
        0x02 :: (ps ++ [0x00]) ∧
      ps.length = 122 ∧ ∀ b ∈ ps, 1 ≤ b ∧ b ≤ 255) :=
  pkcs1pad_encrypt_block_layout (fun i => i) 128 [0x41, 0x42, 0x43] 128
    (by decide) (by decide) (by decide) (by decide) (by decide)

/-! ## Claim C6 -/

/-- C6 counterexample: when the inner set-key succeeds and the inner
maxsize reply is 0 (a non-positive reply), the call returns 0 — success —
rather than propagating an error as the claim requires; the cached
modulus size is left 0. -/
theorem pkcs1pad_set_key_zero_reply_counterexample :
    pkcs1pad_set_pub_key 0 0 0 = (0, 0) ∧
    ¬(pkcs1pad_set_pub_key 0 0 0).1 < 0 := by
  decide

/-- C6 (amended): for both set_pub_key and set_priv_key, when the inner
set-key call succeeds, a positive maxsize reply is cached and 0 returned;
a negative reply is propagated as the error and leaves the cached size 0;
a zero reply leaves the cached size 0 but returns success (the error is
assigned `err = size = 0`); an inner set-key failure is propagated with
the cached size unchanged. -/
theorem pkcs1pad_set_key_behavior (prev : Nat) (innerErr maxSize : Int) :
    (innerErr = 0 → 0 < maxSize →
      pkcs1pad_set_pub_key prev innerErr maxSize = (0, maxSize.toNat) ∧
      pkcs1pad_set_priv_key prev innerErr maxSize = (0, maxSize.toNat)) ∧
    (innerErr = 0 → maxSize < 0 →
      pkcs1pad_set_pub_key prev innerErr maxSize = (maxSize, 0) ∧
      pkcs1pad_set_priv_key prev innerErr maxSize = (maxSize, 0)) ∧
    (innerErr = 0 → maxSize = 0 →
      pkcs1pad_set_pub_key prev innerErr maxSize = (0, 0) ∧
      pkcs1pad_set_priv_key prev innerErr maxSize = (0, 0)) ∧
    (innerErr ≠ 0 →
      pkcs1pad_set_pub_key prev innerErr maxSize = (innerErr, prev) ∧
      pkcs1pad_set_priv_key prev innerErr maxSize = (innerErr, prev)) := by
  refine ⟨fun h1 h2 => ?_, fun h1 h2 => ?_, fun h1 h2 => ?_, fun h1 => ?_⟩
  · subst h1
    unfold pkcs1pad_set_pub_key pkcs1pad_set_priv_key
    rw [if_pos rfl, if_neg (by omega), if_pos h2]
    exact ⟨rfl, rfl⟩
  · subst h1
    unfold pkcs1pad_set_pub_key pkcs1pad_set_priv_key
    rw [if_pos rfl, if_pos (by omega), if_neg (by omega)]
    exact ⟨rfl, rfl⟩
  · subst h1
    subst h2
    unfold pkcs1pad_set_pub_key pkcs1pad_set_priv_key
    rw [if_pos rfl, if_pos (by omega), if_neg (by omega)]
    exact ⟨rfl, rfl⟩
  · unfold pkcs1pad_set_pub_key pkcs1pad_set_priv_key
    rw [if_neg h1]
    exact ⟨rfl, rfl⟩

/-- C6 witness: the amended behaviour at concrete maxsize replies 5, -3
and 0, and a failing inner set-key. -/
theorem pkcs1pad_set_key_behavior_witness :
    (pkcs1pad_set_pub_key 7 0 5 = (0, 5) ∧
     pkcs1pad_set_priv_key 7 0 5 = (0, 5)) ∧
    (pkcs1pad_set_pub_key 7 0 (-3) = (-3, 0) ∧
     pkcs1pad_set_priv_key 7 0 (-3) = (-3, 0)) ∧
    (pkcs1pad_set_pub_key 7 0 0 = (0, 0) ∧
     pkcs1pad_set_priv_key 7 0 0 = (0, 0)) ∧
    (pkcs1pad_set_pub_key 7 (-12) 5 = (-12, 7) ∧
     pkcs1pad_set_priv_key 7 (-12) 5 = (-12, 7)) :=
  ⟨(pkcs1pad_set_key_behavior 7 0 5).1 rfl (by decide),
   (pkcs1pad_set_key_behavior 7 0 (-3)).2.1 rfl (by decide),
   (pkcs1pad_set_key_behavior 7 0 0).2.2.1 rfl rfl,
   (pkcs1pad_set_key_behavior 7 (-12) 5).2.2.2 (by decide)⟩

/-! ## Claim C7 -/

/-- C7: encrypt fails synchronously — independently of anything the inner
engine would do — with *invalid* when no key is installed (`k = 0`),
*overflow* when the plaintext exceeds `k - 11` bytes, *overflow* with the
request's `dst_len` updated to `k` when the destination is shorter than
`k`, and *not-supported* when `k` exceeds the page size; a plaintext of
exactly `k - 11` bytes passes validation and reaches the inner engine. -/
theorem pkcs1pad_encrypt_precondition_errors (rnd : Nat → Nat) (k : Nat)
    (req : AkcipherReq) (innerRet : Int) (innerOut : List Nat) :
    (pkcs1pad_encrypt rnd 0 req innerRet innerOut =
      .precondition (-EINVAL) req.dstLen) ∧
    (11 ≤ k → k < U32 → k - 11 < req.src.length →
      pkcs1pad_encrypt rnd k req innerRet innerOut =
        .precondition (-EOVERFLOW) req.dstLen) ∧
    (11 ≤ k → k < U32 → req.src.length ≤ k - 11 → req.dstLen < k →
      pkcs1pad_encrypt rnd k req innerRet innerOut =
        .precondition (-EOVERFLOW) k) ∧
    (11 ≤ k → k < U32 → req.src.length ≤ k - 11 → k ≤ req.dstLen →
        PAGE_SIZE < k →
      pkcs1pad_encrypt rnd k req innerRet innerOut =
        .precondition (-ENOTSUPP) req.dstLen) ∧
    (11 ≤ k → k < U32 → req.src.length = k - 11 → k ≤ req.dstLen →
        k ≤ PAGE_SIZE →
      pkcs1pad_encrypt rnd k req innerRet innerOut =
        .ofSubmit (pkcs1pad_async_dispatch innerRet req.mayBacklog
          (pkcs1pad_encrypt_sign_complete k innerOut))) := by
  refine ⟨?_, fun h1 h2 h3 => ?_, fun h1 h2 h3 h4 => ?_,
    fun h1 h2 h3 h4 h5 => ?_, fun h1 h2 h3 h4 h5 => ?_⟩
  · unfold pkcs1pad_encrypt pkcs1pad_encrypt_format
    rw [if_pos rfl]
  · unfold pkcs1pad_encrypt pkcs1pad_encrypt_format
    rw [if_neg (by omega), subU32_eq k 11 (by omega) h2, if_pos (by omega)]
  · unfold pkcs1pad_encrypt pkcs1pad_encrypt_format
    rw [if_neg (by omega), subU32_eq k 11 (by omega) h2, if_neg (by omega),
      if_pos h4]
  · unfold pkcs1pad_encrypt pkcs1pad_encrypt_format
    rw [if_neg (by omega), subU32_eq k 11 (by omega) h2, if_neg (by omega),
      if_neg (by omega), if_pos (by omega)]
  · unfold pkcs1pad_encrypt pkcs1pad_encrypt_format
    rw [if_neg (by omega), subU32_eq k 11 (by omega) h2, if_neg (by omega),
      if_neg (by omega), if_neg (by omega)]

set_option maxRecDepth 10000 in
/-- C7 witness: the four precondition errors and the `k - 11` acceptance
at `k = 128` (and `k = 5000 > 4096` for the page-size check): a 118-byte
plaintext (`k - 10`) is rejected with overflow, a 117-byte one
(`k - 11`) reaches the inner engine. -/
theorem pkcs1pad_encrypt_precondition_errors_witness :
    (pkcs1pad_encrypt (fun _ => 0) 0 ⟨List.replicate 118 0x41, 200, false⟩
        0 [] = .precondition (-EINVAL) 200) ∧
    (pkcs1pad_encrypt (fun _ => 0) 128 ⟨List.replicate 118 0x41, 200, false⟩
        0 [] = .precondition (-EOVERFLOW) 200) ∧
    (pkcs1pad_encrypt (fun _ => 0) 128 ⟨List.replicate 117 0x41, 100, false⟩
        0 [] = .precondition (-EOVERFLOW) 128) ∧
    (pkcs1pad_encrypt (fun _ => 0) 5000 ⟨List.replicate 100 0x41, 6000, false⟩
        0 [] = .precondition (-ENOTSUPP) 6000) ∧
    (pkcs1pad_encrypt (fun _ => 0) 128 ⟨List.replicate 117 0x41, 128, false⟩
        0 [] = .ofSubmit (pkcs1pad_async_dispatch 0 false
          (pkcs1pad_encrypt_sign_complete 128 []))) :=
  ⟨(pkcs1pad_encrypt_precondition_errors (fun _ => 0) 128
      ⟨List.replicate 118 0x41, 200, false⟩ 0 []).1,
   (pkcs1pad_encrypt_precondition_errors (fun _ => 0) 128
      ⟨List.replicate 118 0x41, 200, false⟩ 0 []).2.1
     (by decide) (by decide) (by decide),
   (pkcs1pad_encrypt_precondition_errors (fun _ => 0) 128
      ⟨List.replicate 117 0x41, 100, false⟩ 0 []).2.2.1
     (by decide) (by decide) (by decide) (by decide),
   (pkcs1pad_encrypt_precondition_errors (fun _ => 0) 5000
      ⟨List.replicate 100 0x41, 6000, false⟩ 0 []).2.2.2.1
     (by decide) (by decide) (by decide) (by decide) (by decide),
   (pkcs1pad_encrypt_precondition_errors (fun _ => 0) 128
      ⟨List.replicate 117 0x41, 128, false⟩ 0 []).2.2.2.2
     (by decide) (by decide) (by decide) (by decide) (by decide)⟩

/-! ## Claim C8 -/

/-- C8: decrypt rejects synchronously with *invalid* whenever the source
length differs from `k` (and verify whenever it is strictly below `k`),
both also when no key is installed (`k = 0`); decrypt with source length
exactly `k`, and verify with any source length at least `k`, proceed to
the inner engine. -/
theorem pkcs1pad_length_check_asymmetry (k : Nat) (hashName : Option String)
    (req : AkcipherReq) (innerRet : Int) (innerOut : List Nat) :
    (req.src.length ≠ k ∨ k = 0 →
      pkcs1pad_decrypt k req innerRet innerOut =
        .precondition (-EINVAL) req.dstLen) ∧
    (req.src.length < k ∨ k = 0 →
      pkcs1pad_verify k hashName req innerRet innerOut =
        .precondition (-EINVAL) req.dstLen) ∧
    (k ≠ 0 → req.src.length = k → k ≤ PAGE_SIZE →
      pkcs1pad_decrypt k req innerRet innerOut =
        .ofSubmit (pkcs1pad_async_dispatch innerRet req.mayBacklog
          (pkcs1pad_decrypt_complete k req.dstLen innerOut))) ∧
    (k ≠ 0 → k ≤ req.src.length → k ≤ PAGE_SIZE →
      pkcs1pad_verify k hashName req innerRet innerOut =
        .ofSubmit (pkcs1pad_async_dispatch innerRet req.mayBacklog
          (pkcs1pad_verify_complete k req.dstLen hashName innerOut))) := by
  refine ⟨fun h => ?_, fun h => ?_, fun h1 h2 h3 => ?_, fun h1 h2 h3 => ?_⟩
  · unfold pkcs1pad_decrypt pkcs1pad_decrypt_format
    rw [if_pos h.symm]
  · unfold pkcs1pad_verify pkcs1pad_verify_format
    rw [if_pos h.symm]
  · unfold pkcs1pad_decrypt pkcs1pad_decrypt_format
    rw [if_neg (by omega), if_neg (by omega)]
  · unfold pkcs1pad_verify pkcs1pad_verify_format
    rw [if_neg (by omega), if_neg (by omega)]

set_option maxRecDepth 10000 in
/-- C8 witness: at `k = 128`, a 127-byte source is rejected by both
decrypt and verify; a 128-byte source is accepted by decrypt and a
129-byte source by verify. -/
theorem pkcs1pad_length_check_asymmetry_witness :
    (pkcs1pad_decrypt 128 ⟨List.replicate 127 0, 10, false⟩ 3 [] =
      .precondition (-EINVAL) 10) ∧
    (pkcs1pad_verify 128 none ⟨List.replicate 127 0, 10, false⟩ 3 [] =
      .precondition (-EINVAL) 10) ∧
    (pkcs1pad_decrypt 128 ⟨List.replicate 128 0, 10, false⟩ 0 [] =
      .ofSubmit (pkcs1pad_async_dispatch 0 false
        (pkcs1pad_decrypt_complete 128 10 []))) ∧
    (pkcs1pad_verify 128 none ⟨List.replicate 129 0, 10, false⟩ 0 [] =
      .ofSubmit (pkcs1pad_async_dispatch 0 false
        (pkcs1pad_verify_complete 128 10 none []))) :=
  ⟨(pkcs1pad_length_check_asymmetry 128 none
      ⟨List.replicate 127 0, 10, false⟩ 3 []).1 (Or.inl (by decide)),
   (pkcs1pad_length_check_asymmetry 128 none
      ⟨List.replicate 127 0, 10, false⟩ 3 []).2.1 (Or.inl (by decide)),
   (pkcs1pad_length_check_asymmetry 128 none
      ⟨List.replicate 128 0, 10, false⟩ 0 []).2.2.1
     (by decide) (by decide) (by decide),
   (pkcs1pad_length_check_asymmetry 128 none
      ⟨List.replicate 129 0, 10, false⟩ 0 []).2.2.2
     (by decide) (by decide) (by decide)⟩

/-! ## Claim C9 -/

/-- C9: for all four operations, once validation passes the submit result
is exactly the dispatch on the inner return code: `-EINPROGRESS`, and
`-EBUSY` under the may-backlog flag, are returned as-is with
post-processing deferred; every other inner return runs the completion
synchronously and returns its result; the asynchronous callback ignores a
spurious `-EINPROGRESS` notification and otherwise runs the same
completion. -/
theorem pkcs1pad_async_submission_contract (b : Bool)
    (f : Int → CompleteResult) (innerRet : Int)
    (rnd : Nat → Nat) (k : Nat) (hashName : Option String)
    (req : AkcipherReq) (innerOut : List Nat) (cr : ChildReq) :
    (pkcs1pad_async_dispatch (-EINPROGRESS) b f = .pending (-EINPROGRESS)) ∧
    (pkcs1pad_async_dispatch (-EBUSY) true f = .pending (-EBUSY)) ∧
    (innerRet ≠ -EINPROGRESS → (innerRet = -EBUSY → b = false) →
      pkcs1pad_async_dispatch innerRet b f = .done (f innerRet)) ∧
    (pkcs1pad_async_cb (-EINPROGRESS) f = none) ∧
    (innerRet ≠ -EINPROGRESS →
      pkcs1pad_async_cb innerRet f = some (f innerRet)) ∧
    (pkcs1pad_encrypt_format rnd k req.src req.dstLen = .ok cr →
      pkcs1pad_encrypt rnd k req innerRet innerOut =
        .ofSubmit (pkcs1pad_async_dispatch innerRet req.mayBacklog
          (pkcs1pad_encrypt_sign_complete k innerOut))) ∧
    (pkcs1pad_sign_format k hashName req.src req.dstLen = .ok cr →
      pkcs1pad_sign k hashName req innerRet innerOut =
        .ofSubmit (pkcs1pad_async_dispatch innerRet req.mayBacklog
          (pkcs1pad_encrypt_sign_complete k innerOut))) ∧
    (pkcs1pad_decrypt_format k req.src req.dstLen = .ok cr →
      pkcs1pad_decrypt k req innerRet innerOut =
        .ofSubmit (pkcs1pad_async_dispatch innerRet req.mayBacklog
          (pkcs1pad_decrypt_complete k req.dstLen innerOut))) ∧
    (pkcs1pad_verify_format k req.src req.dstLen = .ok cr →
      pkcs1pad_verify k hashName req innerRet innerOut =
        .ofSubmit (pkcs1pad_async_dispatch innerRet req.mayBacklog
          (pkcs1pad_verify_complete k req.dstLen hashName innerOut))) := by
  refine ⟨?_, ?_, fun h1 h2 => ?_, ?_, fun h1 => ?_,
    fun hf => ?_, fun hf => ?_, fun hf => ?_, fun hf => ?_⟩
  · unfold pkcs1pad_async_dispatch
    rw [if_neg (fun h => h.1 rfl)]
  · unfold pkcs1pad_async_dispatch
    rw [if_neg (by rintro ⟨-, h | h⟩; exact h rfl; simp at h)]
  · have hor : innerRet ≠ -EBUSY ∨ b = false := by
      by_cases hb : innerRet = -EBUSY
      · exact Or.inr (h2 hb)
      · exact Or.inl hb
    unfold pkcs1pad_async_dispatch
    rw [if_pos ⟨h1, hor⟩]
  · unfold pkcs1pad_async_cb
    rw [if_pos rfl]
  · unfold pkcs1pad_async_cb
    rw [if_neg h1]
  · simp only [pkcs1pad_encrypt, hf]
  · simp only [pkcs1pad_sign, hf]
  · simp only [pkcs1pad_decrypt, hf]
  · simp only [pkcs1pad_verify, hf]

set_option maxRecDepth 10000 in
/-- C9 witness: the dispatch and callback behaviour at concrete return
codes, and the four operations reduced to the dispatch on concrete
validated requests. -/
theorem pkcs1pad_async_submission_contract_witness :
    (pkcs1pad_async_dispatch (-EINPROGRESS) false
      (pkcs1pad_encrypt_sign_complete 16 []) = .pending (-EINPROGRESS)) ∧
    (pkcs1pad_async_dispatch (-EBUSY) true
      (pkcs1pad_encrypt_sign_complete 16 []) = .pending (-EBUSY)) ∧
    (pkcs1pad_async_dispatch (-ENOMEM) false
      (pkcs1pad_encrypt_sign_complete 16 []) =
        .done (pkcs1pad_encrypt_sign_complete 16 [] (-ENOMEM))) ∧
    (pkcs1pad_async_cb (-EINPROGRESS)
      (pkcs1pad_encrypt_sign_complete 16 []) = none) ∧
    (pkcs1pad_async_cb (-ENOMEM) (pkcs1pad_encrypt_sign_complete 16 []) =
      some (pkcs1pad_encrypt_sign_complete 16 [] (-ENOMEM))) ∧
    (pkcs1pad_encrypt (fun _ => 0) 16 ⟨[0x41], 16, false⟩ (-EBUSY) [] =
      .ofSubmit (pkcs1pad_async_dispatch (-EBUSY) false
        (pkcs1pad_encrypt_sign_complete 16 []))) ∧
    (pkcs1pad_sign 16 none ⟨[0x41], 16, false⟩ 0 [] =
      .ofSubmit (pkcs1pad_async_dispatch 0 false
        (pkcs1pad_encrypt_sign_complete 16 []))) ∧
    (pkcs1pad_decrypt 16 ⟨List.replicate 16 0, 16, false⟩ 0 [] =
      .ofSubmit (pkcs1pad_async_dispatch 0 false
        (pkcs1pad_decrypt_complete 16 16 []))) ∧
    (pkcs1pad_verify 16 none ⟨List.replicate 16 0, 16, false⟩ 0 [] =
      .ofSubmit (pkcs1pad_async_dispatch 0 false
        (pkcs1pad_verify_complete 16 16 none []))) := by
  have A := pkcs1pad_async_submission_contract false
    (pkcs1pad_encrypt_sign_complete 16 []) (-ENOMEM)
    (fun _ => 0) 16 none ⟨[0x41], 16, false⟩ [] ⟨[], [], 0, 0⟩
  have B := pkcs1pad_async_submission_contract false
    (pkcs1pad_encrypt_sign_complete 16 []) (-EBUSY)
    (fun _ => 0) 16 none ⟨[0x41], 16, false⟩ []
    ⟨pkcs1pad_encrypt_in_buf (fun _ => 0) 16 1,
     pkcs1pad_encrypt_in_buf (fun _ => 0) 16 1 ++ [0x41], 15, 16⟩
  have C := pkcs1pad_async_submission_contract false
    (pkcs1pad_encrypt_sign_complete 16 []) 0
    (fun _ => 0) 16 none ⟨[0x41], 16, false⟩ []
    ⟨pkcs1pad_sign_in_buf 16 0 1 [],
     pkcs1pad_sign_in_buf 16 0 1 [] ++ [0x41], 15, 16⟩
  have D := pkcs1pad_async_submission_contract false
    (pkcs1pad_encrypt_sign_complete 16 []) 0
    (fun _ => 0) 16 none ⟨List.replicate 16 0, 16, false⟩ []
    ⟨[], List.replicate 16 0, 16, 16⟩
  exact ⟨A.1, A.2.1, A.2.2.1 (by decide) (fun _ => rfl), A.2.2.2.1,
    A.2.2.2.2.1 (by decide),
    B.2.2.2.2.2.1 rfl,
    C.2.2.2.2.2.2.1 rfl,
    D.2.2.2.2.2.2.2.1 rfl,
    D.2.2.2.2.2.2.2.2 rfl⟩

/-! ## Claim C10 -/

/-- C10: with a configured hash name absent from the DigestInfo table,
sign rejects synchronously with *invalid* before the inner engine is
reached (the result does not depend on the inner return or output), while
verify proceeds to the inner engine, and its post-processing on a
structurally valid block completes with *bad-message* when the per-call
lookup fails. -/
theorem pkcs1pad_unknown_hash_behavior (k reqDstLen : Nat) (name : String)
    (req : AkcipherReq) (innerRet : Int) (innerOut buf : List Nat)
    (hlook : rsa_lookup_asn1 name = none) :
    (k ≠ 0 → pkcs1pad_sign k (some name) req innerRet innerOut =
      .precondition (-EINVAL) req.dstLen) ∧
    (k ≠ 0 → k ≤ req.src.length → k ≤ PAGE_SIZE →
      pkcs1pad_verify k (some name) req innerRet innerOut =
        .ofSubmit (pkcs1pad_async_dispatch innerRet req.mayBacklog
          (pkcs1pad_verify_complete k req.dstLen (some name) innerOut))) ∧
    (buf.length = k - 1 → verifyStructOk buf →
      (pkcs1pad_verify_complete k reqDstLen (some name) buf 0).err =
        -EBADMSG) := by
  refine ⟨fun h1 => ?_, fun h1 h2 h3 => ?_, fun hL hs => ?_⟩
  · have hf : pkcs1pad_sign_format k (some name) req.src req.dstLen =
        .error (-EINVAL, req.dstLen) := by
      unfold pkcs1pad_sign_format
      rw [if_neg h1]
      simp only [hlook]
    simp only [pkcs1pad_sign, hf]
  · have hf : pkcs1pad_verify_format k req.src req.dstLen =
        .ok ⟨[], req.src, req.src.length, k⟩ := by
      unfold pkcs1pad_verify_format
      rw [if_neg (by omega), if_neg (by omega)]
    simp only [pkcs1pad_verify, hf]
  · obtain ⟨h0, h9, hl', hz⟩ := hs
    unfold pkcs1pad_verify_complete
    rw [if_neg (by decide), if_neg (not_not_intro hL),
      if_neg (not_not_intro h0),
      if_neg (by push_neg; exact ⟨by omega, hl', hz⟩)]
    dsimp only
    simp only [hlook]

set_option maxRecDepth 10000 in
/-- C10 witness: the behaviour at the unknown hash name "md4" with
`k = 128`: sign rejects with invalid, verify reaches the inner engine,
and verify post-processing on a structurally valid block returns
bad-message. -/
theorem pkcs1pad_unknown_hash_behavior_witness :
    (pkcs1pad_sign 128 (some "md4") ⟨List.replicate 128 0, 128, false⟩ 0 [] =
      .precondition (-EINVAL) 128) ∧
    (pkcs1pad_verify 128 (some "md4") ⟨List.replicate 128 0, 128, false⟩ 0
        [] = .ofSubmit (pkcs1pad_async_dispatch 0 false
          (pkcs1pad_verify_complete 128 128 (some "md4") []))) ∧
    ((pkcs1pad_verify_complete 128 77 (some "md4")
        (0x01 :: (List.replicate 116 0xff ++ (0x00 :: List.replicate 9 0x42)))
        0).err = -EBADMSG) := by
  have T := pkcs1pad_unknown_hash_behavior 128 77 "md4"
    ⟨List.replicate 128 0, 128, false⟩ 0 []
    (0x01 :: (List.replicate 116 0xff ++ (0x00 :: List.replicate 9 0x42)))
    (by decide)
  exact ⟨T.1 (by decide), T.2.1 (by decide) (by decide) (by decide),
    T.2.2 (by decide) (by decide)⟩
